import Mathlib

/-!
# DocuMind: the retrieval-augmented response pipeline of `server/services/gemini.js`

A shallow embedding of `initializeGemini`, `createEmbedding`, `generateChatResponse` and
`generateTitle`, and of the `refetchInterval` callback of `client/src/hooks/useDocuments.js`.

* The module-level variable `genAI` and the record of the calls made to the external services
  are threaded explicitly as a `State`.
* The external services (the embedding provider, the generation provider and the vector store
  behind `pineconeStore.queryVectors`) and `process.env.GEMINI_API_KEY` are the fields of an
  `Env`; every field may answer or throw, independently for every request.
* A thrown JavaScript `Error` is its `message`, carried in `Except.error`.
* A JavaScript string is a sequence of UTF-16 code units. A text that the code only copies,
  concatenates, joins, trims or tests for emptiness is a Lean `String` (a sequence of Unicode
  characters); its JavaScript value is `utf16 s`, and those operations give the same text
  whether they are done on the characters or on the code units. `substring` and `length`
  count code units, so `substring` is defined on `utf16 s` and its result, which may end in
  the first half of a surrogate pair and then is not a text, is kept as code units.
* The entries of an embedding are numbers that the code only copies; they are values of an
  arbitrary type `ν` with a zero.
* `console.log` and `console.error` have no effect on results and are left out.
-/

namespace DocuMind

/-! ## JavaScript string and array primitives -/

/-- A UTF-16 code unit, the element of a JavaScript string. -/
abbrev CodeUnit := Fin 65536

/-- The UTF-16 code units of one Unicode character: the character itself below U+10000, a high
and a low surrogate otherwise. -/
def utf16Char (c : Char) : List CodeUnit :=
  if c.toNat < 0x10000 then [Fin.ofNat c.toNat]
  else
    [Fin.ofNat (0xD800 + (c.toNat - 0x10000) / 0x400),
     Fin.ofNat (0xDC00 + (c.toNat - 0x10000) % 0x400)]

/-- The JavaScript value of a text: its UTF-16 code units. -/
def utf16 (s : String) : List CodeUnit :=
  s.data.flatMap utf16Char

/-- `String.prototype.substring(start, finish)` for non-negative integer arguments, on the code
units of the string: both indices are clamped to the length of the string (its number of code
units) and swapped when `start > finish`. -/
def substring (s : List CodeUnit) (start finish : Nat) : List CodeUnit :=
  let a := min start s.length
  let b := min finish s.length
  (s.drop (min a b)).take (max a b - min a b)

/-- `Array.prototype.join(separator)` on an array of strings. -/
def join (separator : String) : List String → String
  | [] => ""
  | [x] => x
  | x :: y :: rest => x ++ separator ++ join separator (y :: rest)

/-- White space and line terminators of ECMAScript, the code units `trim` removes. -/
def isTrimmed (c : Char) : Bool :=
  let n := c.toNat
  n = 0x09 || n = 0x0A || n = 0x0B || n = 0x0C || n = 0x0D || n = 0x20 || n = 0xA0 ||
  n = 0x1680 || (0x2000 ≤ n && n ≤ 0x200A) || n = 0x2028 || n = 0x2029 || n = 0x202F ||
  n = 0x205F || n = 0x3000 || n = 0xFEFF

/-- `String.prototype.trim()`. -/
def trim (s : String) : String :=
  String.mk ((((s.data.dropWhile isTrimmed).reverse).dropWhile isTrimmed).reverse)

/-- The expression `value || fallback` for a value that is a string or missing: the fallback is
taken when the value is missing or the empty string. -/
def stringOr (value : Option String) (fallback : String) : String :=
  match value with
  | some text => if text = "" then fallback else text
  | none => fallback

/-- The expression `value || fallback` for a value that is a number or missing: the fallback is
taken when the value is missing or zero. -/
def numberOr (value : Option Nat) (fallback : Nat) : Nat :=
  match value with
  | some n => if n = 0 then fallback else n
  | none => fallback

/-- The assignment `arr[index] = value` on a JavaScript array: an existing slot is overwritten,
`index = arr.length` appends. An index past the end would leave holes; `forEach` below never
produces one (indices are visited in increasing order from 0), the gap is filled with zeros to
keep the function total. -/
def arrayAssign {ν : Type} [Zero ν] (arr : List ν) (index : Nat) (value : ν) : List ν :=
  if index < arr.length then arr.set index value
  else arr ++ List.replicate (index - arr.length) 0 ++ [value]

/-- `values.forEach((value, index) => body)` as a fold: the callback receives each element with
its index, starting at `index`, and updates the captured state `acc`. -/
def forEach {ν σ : Type} (callback : σ → ν → Nat → σ) : List ν → Nat → σ → σ
  | [], _, acc => acc
  | value :: rest, index, acc => forEach callback rest (index + 1) (callback acc value index)

/-! ## Data model -/

/-- Metadata of a match returned by the vector store. `content` and `documentId` are read
without a default by the code; `documentName` and `pageNumber` may be absent (`none`). -/
structure Metadata where
  content : String
  documentId : String
  documentName : Option String
  pageNumber : Option Nat
deriving DecidableEq, Repr

/-- One match of `pineconeStore.queryVectors`; only `metadata` is read. -/
structure SearchResult where
  metadata : Metadata
deriving DecidableEq, Repr

/-- One element of `sources`; `excerpt` is a cut string and is held as code units. -/
structure Source where
  documentId : String
  documentName : String
  pageNumber : Nat
  excerpt : List CodeUnit
deriving DecidableEq, Repr

/-- The object `{ content, sources }` returned by `generateChatResponse`. -/
structure ChatResponse where
  content : String
  sources : List Source
deriving DecidableEq, Repr

/-- The metadata filter `{ documentName: ... }`. -/
structure Filter where
  documentName : String
deriving DecidableEq, Repr

/-- The argument `selectedDocumentName` as a caller can pass it: omitted (`undefined`), `null`,
or a string. -/
inductive SelectedDocumentName where
  | omitted
  | null
  | str (name : String)
deriving DecidableEq, Repr

/-- The object passed to `genAI.getGenerativeModel`. -/
structure ModelParams where
  model : String
  systemInstruction : Option String
deriving DecidableEq, Repr

/-- A field of a provider answer: `undefined` (missing), `null`, or a value. -/
inductive Nullable (α : Type) where
  | undefined
  | null
  | value (a : α)
deriving DecidableEq, Repr

/-- The field `embedding` of the provider's answer; `values` may be `undefined` or `null`. -/
structure ContentEmbedding (ν : Type) where
  values : Nullable (List ν)
deriving DecidableEq, Repr

/-- The answer of `embedContent`; `embedding` may be `undefined` or `null`. -/
structure EmbedContentResponse (ν : Type) where
  embedding : Nullable (ContentEmbedding ν)
deriving DecidableEq, Repr

/-- The client object held in `genAI`. -/
structure GoogleGenAI where
  apiKey : String
deriving DecidableEq, Repr

/-- A call made to an external service. -/
inductive Call (ν : Type) where
  | embedContent (model : String) (text : String)
  | queryVectors (vector : List ν) (topK : Nat) (filter : Option Filter)
  | generateContent (params : ModelParams) (prompt : String)
deriving DecidableEq, Repr

/-- The environment of the module: the configuration and the behaviour of the external
services. `generateContent` stands for `generateContent(prompt)` followed by
`response.text()`: it throws, or yields the text, which may be missing (`none`). `queryVectors`
throws or yields the matches, which may be missing (`none`). -/
structure Env (ν : Type) where
  GEMINI_API_KEY : Option String
  newGoogleGenAI : String → Except String GoogleGenAI
  embedContent : String → String → Except String (EmbedContentResponse ν)
  queryVectors : List ν → Nat → Option Filter → Except String (Option (List SearchResult))
  generateContent : ModelParams → String → Except String (Option String)

/-- The module state: the variable `genAI` and the log of external calls, oldest first. -/
structure State (ν : Type) where
  genAI : Option GoogleGenAI
  calls : List (Call ν)
deriving DecidableEq, Repr

/-- Append a call to the log. -/
def State.record {ν : Type} (s : State ν) (c : Call ν) : State ν :=
  { s with calls := s.calls ++ [c] }

/-- Whether a call is a call of the generator. -/
def Call.isGenerate {ν : Type} : Call ν → Bool
  | .generateContent _ _ => true
  | _ => false

/-- Number of generator calls in the log. -/
def State.generateCount {ν : Type} (s : State ν) : Nat :=
  (s.calls.filter Call.isGenerate).length

/-! ## The module `gemini.js` -/

/-- The function `initializeGemini`: nothing to do when `genAI` is set; otherwise read the key,
throw when it is missing or empty, construct the client; on any failure reset `genAI` to `null`
and rethrow. -/
def initializeGemini {ν : Type} (env : Env ν) (s : State ν) : Except String Unit × State ν :=
  match s.genAI with
  | some _ => (.ok (), s)
  | none =>
    let attempt : Except String GoogleGenAI :=
      match env.GEMINI_API_KEY with
      | none => .error "No Gemini API key found in environment variables"
      | some apiKey =>
        if apiKey = "" then .error "No Gemini API key found in environment variables"
        else env.newGoogleGenAI apiKey
    match attempt with
    | .ok client => (.ok (), { s with genAI := some client })
    | .error message => (.error message, { s with genAI := none })

/-- The array `embedding1024` after the `forEach` loop: 1024 zeros, then every native value
assigned at its index. -/
def embedding1024 {ν : Type} [Zero ν] (values : List ν) : List ν :=
  forEach (fun arr value index => arrayAssign arr index value) values 0 (List.replicate 1024 0)

/-- The `try` block of `createEmbedding`. -/
def createEmbeddingTry {ν : Type} [Zero ν] (env : Env ν) (text : String) (s : State ν) :
    Except String (List ν) × State ν :=
  match initializeGemini env s with
  | (.error message, s1) => (.error message, s1)
  | (.ok _, s1) =>
    match s1.genAI with
    | none => (.error "GoogleGenAI client not initialized", s1)
    | some _ =>
      let s2 := s1.record (.embedContent "text-embedding-004" text)
      match env.embedContent "text-embedding-004" text with
      | .error message => (.error message, s2)
      | .ok result =>
        match result.embedding with
        | .undefined => (.error "Cannot read properties of undefined (reading 'values')", s2)
        | .null => (.error "Cannot read properties of null (reading 'values')", s2)
        | .value embedding =>
          match embedding.values with
          | .undefined =>
            (.error "Cannot read properties of undefined (reading 'forEach')", s2)
          | .null => (.error "Cannot read properties of null (reading 'forEach')", s2)
          | .value values => (.ok (embedding1024 values), s2)

/-- The function `createEmbedding`: the `try` block, and the `catch` that rethrows with the
message prefixed. -/
def createEmbedding {ν : Type} [Zero ν] (env : Env ν) (text : String) (s : State ν) :
    Except String (List ν) × State ν :=
  match createEmbeddingTry env text s with
  | (.ok embedding, s1) => (.ok embedding, s1)
  | (.error message, s1) => (.error ("Failed to create embedding: " ++ message), s1)

/-- The filter built from `selectedDocumentName` (default `null`): an object when the value is
truthy, `undefined` otherwise. -/
def filterOf : SelectedDocumentName → Option Filter
  | .omitted => none
  | .null => none
  | .str name => if name = "" then none else some { documentName := name }

/-- The content returned when the search has no result. -/
def noAnswer : String :=
  "I'm sorry, but I don't know the answer. The information is not available in the document."

/-- The arrow function mapped over `searchResults` to build `sources`. -/
def toSource (result : SearchResult) : Source :=
  { documentId := result.metadata.documentId
    documentName := stringOr result.metadata.documentName "Unknown Document"
    pageNumber := numberOr result.metadata.pageNumber 1
    excerpt := substring (utf16 result.metadata.content) 0 200 ++ utf16 "..." }

/-- The constant `context`. -/
def contextOf (searchResults : List SearchResult) : String :=
  join "\n\n" (searchResults.map (fun result => result.metadata.content))

/-- The template literal `systemInstruction`. -/
def systemInstruction : String :=
  "You are an AI assistant that helps users understand their documents. \n    Answer queries ONLY based on the provided context from the documents.\n    If the context doesn't contain enough information, respond exactly with: \"I'm sorry, but I don't know the answer. The information is not available in the document.\""

/-- The template literal `userPrompt`. -/
def userPrompt (query context : String) : String :=
  "Query: " ++ query ++ "\n\nContext from documents:\n" ++ context ++
    "\n\nPlease provide a helpful answer based ONLY on the context above."

/-- The text used when the generator yields no text. -/
def noGeneration : String :=
  "I apologize, but I couldn't generate a response at this time."

/-- The `try` block of `generateChatResponse`. -/
def generateChatResponseTry {ν : Type} [Zero ν] (env : Env ν) (query : String)
    (selectedDocumentName : SelectedDocumentName) (s : State ν) :
    Except String ChatResponse × State ν :=
  match initializeGemini env s with
  | (.error message, s1) => (.error message, s1)
  | (.ok _, s1) =>
    match s1.genAI with
    | none => (.error "GoogleGenAI client not initialized", s1)
    | some _ =>
      match createEmbedding env query s1 with
      | (.error message, s2) => (.error message, s2)
      | (.ok queryEmbedding, s2) =>
        let filter := filterOf selectedDocumentName
        let s3 := s2.record (.queryVectors queryEmbedding 5 filter)
        match env.queryVectors queryEmbedding 5 filter with
        | .error message => (.error message, s3)
        | .ok none => (.ok { content := noAnswer, sources := [] }, s3)
        | .ok (some searchResults) =>
          if searchResults.length = 0 then (.ok { content := noAnswer, sources := [] }, s3)
          else
            let context := contextOf searchResults
            let sources := searchResults.map toSource
            let params : ModelParams :=
              { model := "gemini-1.5-flash", systemInstruction := some systemInstruction }
            let prompt := userPrompt query context
            let s4 := s3.record (.generateContent params prompt)
            match env.generateContent params prompt with
            | .error message => (.error message, s4)
            | .ok text =>
              let generatedText := stringOr text noGeneration
              (.ok { content := generatedText, sources := sources }, s4)

/-- The function `generateChatResponse`: the `try` block, and the `catch` that rethrows with
the message prefixed. `userId` is not read. -/
def generateChatResponse {ν : Type} [Zero ν] (env : Env ν) (query : String) (userId : String)
    (selectedDocumentName : SelectedDocumentName) (s : State ν) :
    Except String ChatResponse × State ν :=
  let _ := userId
  match generateChatResponseTry env query selectedDocumentName s with
  | (.ok response, s1) => (.ok response, s1)
  | (.error message, s1) => (.error ("Failed to generate response: " ++ message), s1)

/-- The template literal `prompt` of `generateTitle`. -/
def titlePrompt (firstMessage : String) : String :=
  "Generate a short, descriptive title (3-5 words) for a conversation that starts with this message: \"" ++
    firstMessage ++ "\"\n    \n    Return only the title, no quotes or additional text."

/-- The `try` block of `generateTitle`. -/
def generateTitleTry {ν : Type} (env : Env ν) (firstMessage : String) (s : State ν) :
    Except String String × State ν :=
  match initializeGemini env s with
  | (.error message, s1) => (.error message, s1)
  | (.ok _, s1) =>
    match s1.genAI with
    | none => (.ok "New Conversation", s1)
    | some _ =>
      let params : ModelParams := { model := "gemini-1.5-flash", systemInstruction := none }
      let prompt := titlePrompt firstMessage
      let s2 := s1.record (.generateContent params prompt)
      match env.generateContent params prompt with
      | .error message => (.error message, s2)
      | .ok response =>
        let text := response.map trim
        (.ok (stringOr text "New Conversation"), s2)

/-- The function `generateTitle`: the `try` block, and the `catch` that returns the default
title. -/
def generateTitle {ν : Type} (env : Env ν) (firstMessage : String) (s : State ν) :
    Except String String × State ν :=
  match generateTitleTry env firstMessage s with
  | (.ok title, s1) => (.ok title, s1)
  | (.error _, s1) => (.ok "New Conversation", s1)

/-! ## The hook `useDocuments` of `client/src/hooks/useDocuments.js` -/

/-- A document of the list held by the query; `status` is its string, or `none` when the field
is missing or not a string. -/
structure Document where
  status : Option String
deriving DecidableEq, Repr

/-- The value `query.state.data`: `undefined` before the first fetch, an array whose elements
are documents or `null`/`undefined` (`none`), or some value that is not an array. -/
inductive QueryData where
  | undefined
  | array (docs : List (Option Document))
  | notArray
deriving DecidableEq, Repr

/-- What `refetchInterval` returns: a number of milliseconds, or `false`. -/
inductive RefetchInterval where
  | milliseconds (n : Nat)
  | off
deriving DecidableEq, Repr

/-- The expression `d?.status`. -/
def optionalStatus (d : Option Document) : Option String :=
  match d with
  | some document => document.status
  | none => none

/-- The callback passed to `docs.some`. -/
def isInProgress (d : Option Document) : Bool :=
  optionalStatus d == some "uploading" || optionalStatus d == some "processing"

/-- The arrow function `refetchInterval` of `useDocuments`, closed over `isAuthenticated`. -/
def refetchInterval (isAuthenticated : Bool) (data : QueryData) : RefetchInterval :=
  if !isAuthenticated then .off
  else
    let shouldPoll :=
      match data with
      | .array docs => docs.any isInProgress
      | _ => false
    if shouldPoll then .milliseconds 3000 else .off

/-! ## Repeated calls -/

/-- The state after `n` successive calls of `createEmbedding` with the same text. -/
def afterEmbeddings {ν : Type} [Zero ν] (env : Env ν) (text : String) (n : Nat)
    (s : State ν) : State ν :=
  Nat.iterate (fun state => (createEmbedding env text state).2) n s

/-- The state after `n` successive calls of `generateChatResponse` with the same arguments. -/
def afterResponses {ν : Type} [Zero ν] (env : Env ν) (query userId : String)
    (selectedDocumentName : SelectedDocumentName) (n : Nat) (s : State ν) : State ν :=
  Nat.iterate
    (fun state => (generateChatResponse env query userId selectedDocumentName state).2) n s

/-- The state when the search stage has been reached: the client is set, the embedding call
and the vector-store call are logged. -/
def searched {ν : Type} (env : Env ν) (query : String) (queryEmbedding : List ν)
    (selectedDocumentName : SelectedDocumentName) (s : State ν) : State ν :=
  ((initializeGemini env s).2.record (.embedContent "text-embedding-004" query)).record
    (.queryVectors queryEmbedding 5 (filterOf selectedDocumentName))

/-! ## Concrete environments and inputs -/

/-- The state of a freshly loaded module: no client, no call made. -/
def freshState : State Int :=
  { genAI := none, calls := [] }

/-- An environment with a key, a constructor that succeeds, and the given service behaviour. -/
def envWith (embed : Except String (EmbedContentResponse Int))
    (search : Except String (Option (List SearchResult)))
    (generate : Except String (Option String)) : Env Int :=
  { GEMINI_API_KEY := some "key"
    newGoogleGenAI := fun apiKey => .ok { apiKey := apiKey }
    embedContent := fun _ _ => embed
    queryVectors := fun _ _ _ => search
    generateContent := fun _ _ => generate }

/-- An embedding answer carrying the given native values. -/
def embedded (values : List Int) : Except String (EmbedContentResponse Int) :=
  .ok { embedding := .value { values := .value values } }

/-- Two matches from `contract.pdf`, pages 3 and 4. -/
def contractResults : List SearchResult :=
  [ { metadata := { content := "Either party may terminate with 30 days notice."
                    documentId := "doc-1"
                    documentName := some "contract.pdf"
                    pageNumber := some 3 } },
    { metadata := { content := "Termination for cause is immediate."
                    documentId := "doc-1"
                    documentName := some "contract.pdf"
                    pageNumber := some 4 } } ]

/-- A native vector of 1025 entries, one more than the padded size. -/
def oversizedValues : List Int :=
  List.replicate 1025 1

/-- One match whose `documentName` is present and is the empty string. -/
def unnamedResults : List SearchResult :=
  [ { metadata := { content := "Clause 7 covers renewal."
                    documentId := "doc-2"
                    documentName := some ""
                    pageNumber := some 2 } } ]

/-- An environment without an API key; the services would answer if they were called. -/
def envWithoutKey : Env Int :=
  { GEMINI_API_KEY := none
    newGoogleGenAI := fun apiKey => .ok { apiKey := apiKey }
    embedContent := fun _ _ => embedded [1, 2, 3]
    queryVectors := fun _ _ _ => .ok (some contractResults)
    generateContent := fun _ _ => .ok (some "unused") }

/-- A list of documents, one of them still processing. -/
def someProcessing : List (Option Document) :=
  [some { status := some "ready" }, none, some { status := some "processing" }]

/-- The character U+1F600, which takes two code units. -/
def grinningFace : Char :=
  Char.ofNat 0x1F600

/-- Four matches whose contents have 199, 200 and 201 code units (the letter `a` repeated), and
300 code units (150 times U+1F600). -/
def boundaryResults : List SearchResult :=
  [ { metadata := { content := String.mk (List.replicate 199 'a')
                    documentId := "doc-3"
                    documentName := some "notes.pdf"
                    pageNumber := some 1 } },
    { metadata := { content := String.mk (List.replicate 200 'a')
                    documentId := "doc-3"
                    documentName := some "notes.pdf"
                    pageNumber := some 2 } },
    { metadata := { content := String.mk (List.replicate 201 'a')
                    documentId := "doc-3"
                    documentName := some "notes.pdf"
                    pageNumber := some 3 } },
    { metadata := { content := String.mk (List.replicate 150 grinningFace)
                    documentId := "doc-3"
                    documentName := some "notes.pdf"
                    pageNumber := some 4 } } ]

/-! ## Auxiliary lemmas -/

section Lemmas

variable {ν : Type} [Zero ν]

theorem arrayAssign_append (pre rest : List ν) (value : ν) :
    arrayAssign (pre ++ rest) pre.length value = (pre ++ [value]) ++ rest.drop 1 := by
  unfold arrayAssign
  cases rest with
  | nil => simp
  | cons r rs => simp [List.set_append]

theorem forEach_arrayAssign (values pre rest : List ν) :
    forEach (fun arr value index => arrayAssign arr index value) values pre.length (pre ++ rest)
      = pre ++ values ++ rest.drop values.length := by
  induction values generalizing pre rest with
  | nil => simp [forEach]
  | cons v vs ih =>
    have h := ih (pre ++ [v]) (rest.drop 1)
    simp only [List.length_append, List.length_singleton] at h
    simp only [forEach, arrayAssign_append, h, List.drop_drop, List.length_cons]
    simp [Nat.add_comm]

theorem embedding1024_eq (values : List ν) :
    embedding1024 values = values ++ List.replicate (1024 - values.length) 0 := by
  have h := forEach_arrayAssign values [] (List.replicate 1024 (0 : ν))
  rw [List.drop_replicate] at h
  exact h

theorem substring_zero (s : List CodeUnit) (n : Nat) :
    substring s 0 n = s.take n := by
  have h : min n s.length - 0 = min n s.length := Nat.sub_zero _
  simp only [substring, Nat.zero_min, Nat.zero_le, max_eq_right, List.drop_zero, h]
  rw [List.take_eq_take]
  omega

theorem utf16_append (s t : String) : utf16 (s ++ t) = utf16 s ++ utf16 t := by
  simp only [utf16, String.data_append, List.flatMap_append]

theorem utf16_of_bmp (chars : List Char) (h : ∀ c ∈ chars, c.toNat < 0x10000) :
    chars.flatMap utf16Char = chars.map (fun c => (Fin.ofNat c.toNat : CodeUnit)) := by
  induction chars with
  | nil => rfl
  | cons c rest ih =>
    have hc : c.toNat < 0x10000 := h c (List.mem_cons_self c rest)
    have hrest : ∀ d ∈ rest, d.toNat < 0x10000 := fun d hd => h d (List.mem_cons_of_mem c hd)
    rw [List.flatMap_cons, List.map_cons, ih hrest]
    simp only [utf16Char, hc, if_true, List.singleton_append]

theorem utf16_take_of_bmp (s : String) (n : Nat) (h : ∀ c ∈ s.data, c.toNat < 0x10000) :
    (utf16 s).take n = utf16 (String.mk (s.data.take n)) := by
  have htake : ∀ c ∈ s.data.take n, c.toNat < 0x10000 :=
    fun c hc => h c (List.mem_of_mem_take hc)
  simp only [utf16]
  rw [utf16_of_bmp s.data h, utf16_of_bmp (s.data.take n) htake, List.map_take]

theorem utf16_length_of_bmp (s : String) (h : ∀ c ∈ s.data, c.toNat < 0x10000) :
    (utf16 s).length = s.length := by
  simp only [utf16]
  rw [utf16_of_bmp s.data h, List.length_map]
  rfl

theorem initializeGemini_of_some {ν : Type} (env : Env ν) (s : State ν) (client : GoogleGenAI)
    (h : s.genAI = some client) : initializeGemini env s = (.ok (), s) := by
  simp [initializeGemini, h]

theorem initializeGemini_ok {ν : Type} (env : Env ν) (s : State ν)
    (h : (initializeGemini env s).1 = .ok ()) :
    ∃ client, initializeGemini env s = (.ok (), { s with genAI := some client }) := by
  unfold initializeGemini at h ⊢
  cases hg : s.genAI with
  | some client =>
    refine ⟨client, ?_⟩
    cases s
    simp_all
  | none =>
    simp only [hg] at h ⊢
    split at h
    · next client hc => exact ⟨client, by simp [hc]⟩
    · simp at h

theorem initializeGemini_error {ν : Type} (env : Env ν) (s : State ν) (message : String)
    (h : (initializeGemini env s).1 = .error message) :
    initializeGemini env s = (.error message, { s with genAI := none }) := by
  unfold initializeGemini at h ⊢
  cases hg : s.genAI with
  | some client => simp [hg] at h
  | none =>
    simp only [hg] at h ⊢
    split at h
    · simp at h
    · next m hm =>
      simp only [Except.error.injEq] at h
      simp [hm, h]

theorem createEmbeddingTry_of_ready (env : Env ν) (text : String) (s : State ν)
    (h : (initializeGemini env s).1 = .ok ()) :
    createEmbeddingTry env text s =
      (match env.embedContent "text-embedding-004" text with
        | .error message => .error message
        | .ok result =>
          match result.embedding with
          | .undefined => .error "Cannot read properties of undefined (reading 'values')"
          | .null => .error "Cannot read properties of null (reading 'values')"
          | .value embedding =>
            match embedding.values with
            | .undefined => .error "Cannot read properties of undefined (reading 'forEach')"
            | .null => .error "Cannot read properties of null (reading 'forEach')"
            | .value values => .ok (embedding1024 values),
       (initializeGemini env s).2.record (.embedContent "text-embedding-004" text)) := by
  obtain ⟨client, hc⟩ := initializeGemini_ok env s h
  unfold createEmbeddingTry
  rw [hc]
  simp only
  cases env.embedContent "text-embedding-004" text with
  | error message => rfl
  | ok result => rcases result with ⟨_ | _ | ⟨_ | _ | values⟩⟩ <;> rfl

theorem createEmbedding_values (env : Env ν) (text : String) (s : State ν) (values : List ν)
    (h : (initializeGemini env s).1 = .ok ())
    (hE : env.embedContent "text-embedding-004" text
      = .ok { embedding := .value { values := .value values } }) :
    createEmbedding env text s =
      (.ok (embedding1024 values),
        (initializeGemini env s).2.record (.embedContent "text-embedding-004" text)) := by
  unfold createEmbedding
  rw [createEmbeddingTry_of_ready env text s h, hE]

theorem createEmbedding_error (env : Env ν) (text : String) (s : State ν) (message : String)
    (h : (initializeGemini env s).1 = .ok ())
    (hE : env.embedContent "text-embedding-004" text = .error message) :
    createEmbedding env text s =
      (.error ("Failed to create embedding: " ++ message),
        (initializeGemini env s).2.record (.embedContent "text-embedding-004" text)) := by
  unfold createEmbedding
  rw [createEmbeddingTry_of_ready env text s h, hE]

theorem initializeGemini_twice {ν : Type} (env : Env ν) (s : State ν)
    (h : (initializeGemini env s).1 = .ok ()) :
    initializeGemini env (initializeGemini env s).2 = (.ok (), (initializeGemini env s).2) := by
  obtain ⟨client, hc⟩ := initializeGemini_ok env s h
  rw [hc]
  exact initializeGemini_of_some env _ client rfl

theorem generateChatResponseTry_of_ready (env : Env ν) (query : String)
    (selectedDocumentName : SelectedDocumentName) (s : State ν)
    (h : (initializeGemini env s).1 = .ok ()) :
    generateChatResponseTry env query selectedDocumentName s =
      match createEmbedding env query (initializeGemini env s).2 with
      | (.error message, s2) => (.error message, s2)
      | (.ok queryEmbedding, s2) =>
        let filter := filterOf selectedDocumentName
        let s3 := s2.record (.queryVectors queryEmbedding 5 filter)
        match env.queryVectors queryEmbedding 5 filter with
        | .error message => (.error message, s3)
        | .ok none => (.ok { content := noAnswer, sources := [] }, s3)
        | .ok (some searchResults) =>
          if searchResults.length = 0 then (.ok { content := noAnswer, sources := [] }, s3)
          else
            let params : ModelParams :=
              { model := "gemini-1.5-flash", systemInstruction := some systemInstruction }
            let prompt := userPrompt query (contextOf searchResults)
            let s4 := s3.record (.generateContent params prompt)
            match env.generateContent params prompt with
            | .error message => (.error message, s4)
            | .ok text =>
              (.ok { content :=
                      stringOr text noGeneration
                     sources := searchResults.map toSource }, s4) := by
  obtain ⟨client, hc⟩ := initializeGemini_ok env s h
  unfold generateChatResponseTry
  rw [hc]

theorem generateChatResponseTry_of_embedded (env : Env ν) (query : String)
    (selectedDocumentName : SelectedDocumentName) (s : State ν) (values : List ν)
    (h : (initializeGemini env s).1 = .ok ())
    (hE : env.embedContent "text-embedding-004" query
      = .ok { embedding := .value { values := .value values } }) :
    generateChatResponseTry env query selectedDocumentName s =
      match env.queryVectors (embedding1024 values) 5 (filterOf selectedDocumentName) with
      | .error message =>
        (.error message, searched env query (embedding1024 values) selectedDocumentName s)
      | .ok none =>
        (.ok { content := noAnswer, sources := [] },
          searched env query (embedding1024 values) selectedDocumentName s)
      | .ok (some searchResults) =>
        if searchResults.length = 0 then
          (.ok { content := noAnswer, sources := [] },
            searched env query (embedding1024 values) selectedDocumentName s)
        else
          match env.generateContent
              { model := "gemini-1.5-flash", systemInstruction := some systemInstruction }
              (userPrompt query (contextOf searchResults)) with
          | .error message =>
            (.error message,
              (searched env query (embedding1024 values) selectedDocumentName s).record
                (.generateContent
                  { model := "gemini-1.5-flash", systemInstruction := some systemInstruction }
                  (userPrompt query (contextOf searchResults))))
          | .ok text =>
            (.ok { content :=
                    stringOr text noGeneration
                   sources := searchResults.map toSource },
              (searched env query (embedding1024 values) selectedDocumentName s).record
                (.generateContent
                  { model := "gemini-1.5-flash", systemInstruction := some systemInstruction }
                  (userPrompt query (contextOf searchResults)))) := by
  rw [generateChatResponseTry_of_ready env query selectedDocumentName s h]
  have h2 : (initializeGemini env (initializeGemini env s).2).1 = .ok () := by
    rw [initializeGemini_twice env s h]
  rw [createEmbedding_values env query _ values h2 hE, initializeGemini_twice env s h]
  rfl

theorem generateChatResponse_success (env : Env ν) (query userId : String)
    (selectedDocumentName : SelectedDocumentName) (s : State ν) (values : List ν)
    (searchResults : List SearchResult) (text : Option String)
    (hInit : (initializeGemini env s).1 = .ok ())
    (hEmbed : env.embedContent "text-embedding-004" query
      = .ok { embedding := .value { values := .value values } })
    (hSearch : env.queryVectors (embedding1024 values) 5 (filterOf selectedDocumentName)
      = .ok (some searchResults))
    (hNonEmpty : searchResults ≠ [])
    (hGenerate : env.generateContent
        { model := "gemini-1.5-flash", systemInstruction := some systemInstruction }
        (userPrompt query (contextOf searchResults)) = .ok text) :
    (generateChatResponse env query userId selectedDocumentName s).1
      = .ok { content :=
                stringOr text noGeneration
              sources := searchResults.map toSource } := by
  have hlen : ¬ searchResults.length = 0 := by
    intro h0
    exact hNonEmpty (List.length_eq_zero.mp h0)
  unfold generateChatResponse
  rw [generateChatResponseTry_of_embedded env query selectedDocumentName s values hInit hEmbed,
    hSearch]
  simp only [hlen, if_false, hGenerate]

theorem generateChatResponseTry_sources (env : Env ν) (query : String)
    (selectedDocumentName : SelectedDocumentName) (s : State ν) (response : ChatResponse)
    (h : (generateChatResponseTry env query selectedDocumentName s).1 = .ok response) :
    ∃ searchResults : List SearchResult, response.sources = searchResults.map toSource := by
  unfold generateChatResponseTry at h
  simp only at h
  repeat' split at h
  all_goals first
    | (simp at h; done)
    | (simp only [Except.ok.injEq] at h
       subst h
       first | exact ⟨[], rfl⟩ | exact ⟨_, rfl⟩)

theorem generateChatResponse_sources (env : Env ν) (query userId : String)
    (selectedDocumentName : SelectedDocumentName) (s : State ν) (response : ChatResponse)
    (h : (generateChatResponse env query userId selectedDocumentName s).1 = .ok response) :
    ∃ searchResults : List SearchResult, response.sources = searchResults.map toSource := by
  unfold generateChatResponse at h
  split at h
  · next r s1 hr =>
    simp only [Except.ok.injEq] at h
    apply generateChatResponseTry_sources env query selectedDocumentName s response
    rw [hr, h]
  · simp at h

theorem toSource_excerpt (result : SearchResult) :
    (toSource result).excerpt
      = (utf16 result.metadata.content).take 200 ++ utf16 "..." := by
  simp only [toSource, substring_zero]

theorem excerpt_length (content : String) :
    ((utf16 content).take 200 ++ utf16 "...").length
      = min 200 (utf16 content).length + 3 := by
  rw [List.length_append, List.length_take]
  rfl

theorem intercalate_go_eq (separator : String) (rest : List String) (acc x : String) :
    String.intercalate.go (acc ++ x) separator rest = acc ++ join separator (x :: rest) := by
  induction rest generalizing acc x with
  | nil => rfl
  | cons y ys ih =>
    have h := ih (acc ++ x ++ separator) y
    simp only [String.intercalate.go, join]
    rw [h, String.append_assoc, String.append_assoc, String.append_assoc]

theorem join_eq_intercalate (separator : String) (parts : List String) :
    join separator parts = String.intercalate separator parts := by
  cases parts with
  | nil => rfl
  | cons x rest =>
    have h := intercalate_go_eq separator rest "" x
    rw [String.empty_append, String.empty_append] at h
    exact h.symm

theorem initializeGemini_missing_key {ν : Type} (env : Env ν) (s : State ν)
    (hKey : env.GEMINI_API_KEY = none ∨ env.GEMINI_API_KEY = some "")
    (hNull : s.genAI = none) :
    initializeGemini env s
      = (.error "No Gemini API key found in environment variables", s) := by
  cases s with
  | mk genAI calls =>
    simp only at hNull
    subst hNull
    rcases hKey with h | h <;> simp [initializeGemini, h]

theorem createEmbedding_missing_key (env : Env ν) (text : String) (s : State ν)
    (hKey : env.GEMINI_API_KEY = none ∨ env.GEMINI_API_KEY = some "")
    (hNull : s.genAI = none) :
    createEmbedding env text s
      = (.error "Failed to create embedding: No Gemini API key found in environment variables",
          s) := by
  unfold createEmbedding createEmbeddingTry
  rw [initializeGemini_missing_key env s hKey hNull]
  rfl

theorem generateChatResponse_missing_key (env : Env ν) (query userId : String)
    (selectedDocumentName : SelectedDocumentName) (s : State ν)
    (hKey : env.GEMINI_API_KEY = none ∨ env.GEMINI_API_KEY = some "")
    (hNull : s.genAI = none) :
    generateChatResponse env query userId selectedDocumentName s
      = (.error "Failed to generate response: No Gemini API key found in environment variables",
          s) := by
  unfold generateChatResponse generateChatResponseTry
  rw [initializeGemini_missing_key env s hKey hNull]
  rfl

theorem afterEmbeddings_missing_key (env : Env ν) (text : String) (s : State ν) (n : Nat)
    (hKey : env.GEMINI_API_KEY = none ∨ env.GEMINI_API_KEY = some "")
    (hNull : s.genAI = none) :
    afterEmbeddings env text n s = s := by
  induction n with
  | zero => rfl
  | succ k ih =>
    unfold afterEmbeddings at ih ⊢
    rw [Function.iterate_succ_apply, createEmbedding_missing_key env text s hKey hNull]
    exact ih

theorem afterResponses_missing_key (env : Env ν) (query userId : String)
    (selectedDocumentName : SelectedDocumentName) (s : State ν) (n : Nat)
    (hKey : env.GEMINI_API_KEY = none ∨ env.GEMINI_API_KEY = some "")
    (hNull : s.genAI = none) :
    afterResponses env query userId selectedDocumentName n s = s := by
  induction n with
  | zero => rfl
  | succ k ih =>
    unfold afterResponses at ih ⊢
    rw [Function.iterate_succ_apply,
      generateChatResponse_missing_key env query userId selectedDocumentName s hKey hNull]
    exact ih

theorem generateChatResponse_generate_calls (env : Env ν) (query userId : String)
    (selectedDocumentName : SelectedDocumentName) (s : State ν) (values : List ν)
    (searchResults : List SearchResult)
    (hInit : (initializeGemini env s).1 = .ok ())
    (hEmbed : env.embedContent "text-embedding-004" query
      = .ok { embedding := .value { values := .value values } })
    (hSearch : env.queryVectors (embedding1024 values) 5 (filterOf selectedDocumentName)
      = .ok (some searchResults))
    (hNonEmpty : searchResults ≠ []) :
    (generateChatResponse env query userId selectedDocumentName s).2.calls
      = s.calls ++
        [Call.embedContent "text-embedding-004" query,
         Call.queryVectors (embedding1024 values) 5 (filterOf selectedDocumentName),
         Call.generateContent
           { model := "gemini-1.5-flash", systemInstruction := some systemInstruction }
           (userPrompt query (contextOf searchResults))] := by
  obtain ⟨client, hc⟩ := initializeGemini_ok env s hInit
  have hlen : ¬ searchResults.length = 0 := by
    intro h0
    exact hNonEmpty (List.length_eq_zero.mp h0)
  unfold generateChatResponse
  rw [generateChatResponseTry_of_embedded env query selectedDocumentName s values hInit hEmbed,
    hSearch]
  simp only [hlen, if_false]
  cases env.generateContent
      { model := "gemini-1.5-flash", systemInstruction := some systemInstruction }
      (userPrompt query (contextOf searchResults)) <;>
    simp [searched, hc, State.record]

theorem generateChatResponse_no_answer (env : Env ν) (query userId : String)
    (selectedDocumentName : SelectedDocumentName) (s : State ν) (values : List ν)
    (hInit : (initializeGemini env s).1 = .ok ())
    (hEmbed : env.embedContent "text-embedding-004" query
      = .ok { embedding := .value { values := .value values } })
    (hSearch :
      env.queryVectors (embedding1024 values) 5 (filterOf selectedDocumentName) = .ok none ∨
      env.queryVectors (embedding1024 values) 5 (filterOf selectedDocumentName) = .ok (some [])) :
    (generateChatResponse env query userId selectedDocumentName s).1
      = .ok { content := noAnswer, sources := [] } := by
  unfold generateChatResponse
  rw [generateChatResponseTry_of_embedded env query selectedDocumentName s values hInit hEmbed]
  rcases hSearch with h | h
  · rw [h]
  · rw [h]
    rfl

set_option maxRecDepth 8000 in
theorem systemInstruction_contains :
    systemInstruction =
      "You are an AI assistant that helps users understand their documents. \n    Answer queries ONLY based on the provided context from the documents.\n    If the context doesn't contain enough information, respond exactly with: \"" ++
        "I'm sorry, but I don't know the answer. The information is not available in the document."
        ++ "\"" := by
  decide

theorem isInProgress_iff (d : Option Document) :
    isInProgress d = true ↔
      ∃ document, d = some document ∧
        (document.status = some "uploading" ∨ document.status = some "processing") := by
  cases d with
  | none => simp [isInProgress, optionalStatus]
  | some document => simp [isInProgress, optionalStatus]

end Lemmas

/-! ## Claims -/

section Claims

variable {ν : Type} [Zero ν]

/-- C1: when the client initialises, the embedding call yields a vector and the vector store
yields an empty sequence or no value, `generateChatResponse` returns exactly the fixed
"I don't know" content with `sources = []`, and the number of generator calls in the log is
the same after the call as before it: the generator is not invoked. -/
theorem generateChatResponse_empty_results (env : Env ν) (query userId : String)
    (selectedDocumentName : SelectedDocumentName) (s : State ν) (values : List ν)
    (hInit : (initializeGemini env s).1 = .ok ())
    (hEmbed : env.embedContent "text-embedding-004" query
      = .ok { embedding := .value { values := .value values } })
    (hSearch :
      env.queryVectors (embedding1024 values) 5 (filterOf selectedDocumentName) = .ok none ∨
      env.queryVectors (embedding1024 values) 5 (filterOf selectedDocumentName) = .ok (some [])) :
    (generateChatResponse env query userId selectedDocumentName s).1
        = .ok { content := "I'm sorry, but I don't know the answer. The information is not available in the document."
                sources := [] } ∧
      (generateChatResponse env query userId selectedDocumentName s).2.generateCount
        = s.generateCount := by
  obtain ⟨client, hc⟩ := initializeGemini_ok env s hInit
  have hcount : (searched env query (embedding1024 values) selectedDocumentName s).generateCount
      = s.generateCount := by
    simp [searched, hc, State.record, State.generateCount, List.filter_append, Call.isGenerate]
  unfold generateChatResponse
  rw [generateChatResponseTry_of_embedded env query selectedDocumentName s values hInit hEmbed]
  rcases hSearch with h | h <;> rw [h] <;> exact ⟨rfl, hcount⟩

/-- C1, at a concrete input: the store yields an empty sequence. -/
theorem generateChatResponse_empty_results_witness :
    (generateChatResponse (envWith (embedded [1, 2, 3]) (.ok (some [])) (.ok (some "unused")))
        "What is the termination clause?" "user-1" .omitted freshState).1
        = .ok { content := "I'm sorry, but I don't know the answer. The information is not available in the document."
                sources := [] } ∧
      (generateChatResponse (envWith (embedded [1, 2, 3]) (.ok (some [])) (.ok (some "unused")))
        "What is the termination clause?" "user-1" .omitted freshState).2.generateCount
        = freshState.generateCount :=
  generateChatResponse_empty_results _ _ _ _ _ [1, 2, 3] rfl rfl (Or.inr rfl)

/-- C2: for a non-empty sequence of matches (of any length, in particular n ≤ 5) and a generator
call that succeeds, `generateChatResponse` returns an answer whose `sources` has the length of
the sequence, and whose i-th source is built from the i-th match and carries its `documentId`:
the ranking order is kept. -/
theorem generateChatResponse_sources_ranked (env : Env ν) (query userId : String)
    (selectedDocumentName : SelectedDocumentName) (s : State ν) (values : List ν)
    (searchResults : List SearchResult) (text : Option String)
    (hInit : (initializeGemini env s).1 = .ok ())
    (hEmbed : env.embedContent "text-embedding-004" query
      = .ok { embedding := .value { values := .value values } })
    (hSearch : env.queryVectors (embedding1024 values) 5 (filterOf selectedDocumentName)
      = .ok (some searchResults))
    (hNonEmpty : searchResults ≠ [])
    (hGenerate : env.generateContent
        { model := "gemini-1.5-flash", systemInstruction := some systemInstruction }
        (userPrompt query (contextOf searchResults)) = .ok text) :
    ∃ response, (generateChatResponse env query userId selectedDocumentName s).1 = .ok response ∧
      response.sources.length = searchResults.length ∧
      ∀ i : Nat, response.sources[i]? = (searchResults[i]?).map toSource ∧
        (response.sources[i]?).map Source.documentId
          = (searchResults[i]?).map (fun result : SearchResult => result.metadata.documentId) := by
  refine ⟨_, generateChatResponse_success env query userId selectedDocumentName s values
    searchResults text hInit hEmbed hSearch hNonEmpty hGenerate, ?_, ?_⟩
  · simp
  · intro i
    simp only [List.getElem?_map, true_and]
    cases searchResults[i]? <;> rfl

/-- C2, at a concrete input: two matches from `contract.pdf`. -/
theorem generateChatResponse_sources_ranked_witness :
    ∃ response,
      (generateChatResponse
        (envWith (embedded [1, 2, 3]) (.ok (some contractResults)) (.ok (some "30 days.")))
        "What is the termination clause?" "user-1" .omitted freshState).1 = .ok response ∧
      response.sources.length = contractResults.length ∧
      ∀ i : Nat, response.sources[i]? = (contractResults[i]?).map toSource ∧
        (response.sources[i]?).map Source.documentId
          = (contractResults[i]?).map (fun result : SearchResult => result.metadata.documentId) :=
  generateChatResponse_sources_ranked _ _ _ _ _ [1, 2, 3] contractResults (some "30 days.")
    rfl rfl rfl (by decide) rfl

/-- C3: the excerpt of the source built from a match with content `c` is the first 200
characters of `c` followed by `...`, a character being a UTF-16 code unit, the unit in which
JavaScript counts the length and the indices of a string. When `c` has more than 200 code
units the excerpt is its first 200 code units plus the marker (203 code units); when `c` has
at most 200 code units it is all of `c` plus the marker. When every character of `c` lies below
U+10000, code units and Unicode characters coincide, and the excerpt is the text made of the
first 200 Unicode characters of `c` and the marker. -/
theorem generateChatResponse_excerpt (env : Env ν) (query userId : String)
    (selectedDocumentName : SelectedDocumentName) (s : State ν) (values : List ν)
    (searchResults : List SearchResult) (text : Option String)
    (hInit : (initializeGemini env s).1 = .ok ())
    (hEmbed : env.embedContent "text-embedding-004" query
      = .ok { embedding := .value { values := .value values } })
    (hSearch : env.queryVectors (embedding1024 values) 5 (filterOf selectedDocumentName)
      = .ok (some searchResults))
    (hNonEmpty : searchResults ≠ [])
    (hGenerate : env.generateContent
        { model := "gemini-1.5-flash", systemInstruction := some systemInstruction }
        (userPrompt query (contextOf searchResults)) = .ok text) :
    ∃ response, (generateChatResponse env query userId selectedDocumentName s).1 = .ok response ∧
      ∀ (i : Nat) (result : SearchResult), searchResults[i]? = some result →
        ∃ source, response.sources[i]? = some source ∧
          source.excerpt = (utf16 result.metadata.content).take 200 ++ utf16 "..." ∧
          (200 < (utf16 result.metadata.content).length →
            ((utf16 result.metadata.content).take 200).length = 200 ∧
            source.excerpt.length = 203) ∧
          ((utf16 result.metadata.content).length ≤ 200 →
            source.excerpt = utf16 (result.metadata.content ++ "...")) ∧
          ((∀ c ∈ result.metadata.content.data, c.toNat < 0x10000) →
            (utf16 result.metadata.content).length = result.metadata.content.length ∧
            source.excerpt
              = utf16 (String.mk (result.metadata.content.data.take 200) ++ "...")) := by
  refine ⟨_, generateChatResponse_success env query userId selectedDocumentName s values
    searchResults text hInit hEmbed hSearch hNonEmpty hGenerate, ?_⟩
  intro i result hi
  refine ⟨toSource result, by simp [hi], toSource_excerpt result, ?_, ?_, ?_⟩
  · intro hlong
    constructor
    · rw [List.length_take]
      omega
    · rw [toSource_excerpt, excerpt_length]
      omega
  · intro hshort
    rw [toSource_excerpt, List.take_of_length_le hshort, utf16_append]
  · intro hbmp
    refine ⟨utf16_length_of_bmp _ hbmp, ?_⟩
    rw [toSource_excerpt, utf16_append, utf16_take_of_bmp _ 200 hbmp]

set_option maxRecDepth 20000 in
/-- C3, at a concrete input: contents of 199, 200 and 201 code units, and a content of 150
characters U+1F600 (300 code units). The excerpts have 202, 203, 203 and 203 code units; the
contents of 199 and 200 code units are kept whole, the content of 201 is cut to 200, and the
last one is cut to 100 characters U+1F600. -/
theorem generateChatResponse_excerpt_witness :
    (∃ response,
      (generateChatResponse
        (envWith (embedded [1, 2, 3]) (.ok (some boundaryResults)) (.ok (some "Noted.")))
        "What do the notes say?" "user-1" .omitted freshState).1 = .ok response ∧
      ∀ (i : Nat) (result : SearchResult), boundaryResults[i]? = some result →
        ∃ source, response.sources[i]? = some source ∧
          source.excerpt = (utf16 result.metadata.content).take 200 ++ utf16 "..." ∧
          (200 < (utf16 result.metadata.content).length →
            ((utf16 result.metadata.content).take 200).length = 200 ∧
            source.excerpt.length = 203) ∧
          ((utf16 result.metadata.content).length ≤ 200 →
            source.excerpt = utf16 (result.metadata.content ++ "...")) ∧
          ((∀ c ∈ result.metadata.content.data, c.toNat < 0x10000) →
            (utf16 result.metadata.content).length = result.metadata.content.length ∧
            source.excerpt
              = utf16 (String.mk (result.metadata.content.data.take 200) ++ "..."))) ∧
    boundaryResults.map (fun result => (utf16 result.metadata.content).length)
      = [199, 200, 201, 300] ∧
    boundaryResults.map (fun result => (toSource result).excerpt)
      = [utf16 (String.mk (List.replicate 199 'a') ++ "..."),
         utf16 (String.mk (List.replicate 200 'a') ++ "..."),
         utf16 (String.mk (List.replicate 200 'a') ++ "..."),
         utf16 (String.mk (List.replicate 100 grinningFace) ++ "...")] :=
  ⟨generateChatResponse_excerpt _ _ _ _ _ [1, 2, 3] boundaryResults (some "Noted.")
    rfl rfl rfl (by decide) rfl, by decide, by decide⟩

/-- C4: every source of every answer returned by `generateChatResponse` has an excerpt of at
most 203 characters. -/
theorem generateChatResponse_excerpt_length (env : Env ν) (query userId : String)
    (selectedDocumentName : SelectedDocumentName) (s : State ν) (response : ChatResponse)
    (h : (generateChatResponse env query userId selectedDocumentName s).1 = .ok response) :
    ∀ source ∈ response.sources, source.excerpt.length ≤ 203 := by
  obtain ⟨searchResults, hs⟩ :=
    generateChatResponse_sources env query userId selectedDocumentName s response h
  intro source hmem
  rw [hs, List.mem_map] at hmem
  obtain ⟨result, _, rfl⟩ := hmem
  rw [toSource_excerpt, excerpt_length]
  omega

/-- C4, at a concrete input: the answer built from two matches. -/
theorem generateChatResponse_excerpt_length_witness :
    (generateChatResponse
      (envWith (embedded [1, 2, 3]) (.ok (some contractResults)) (.ok (some "30 days.")))
      "What is the termination clause?" "user-1" .omitted freshState).1
      = .ok { content := "30 days.", sources := contractResults.map toSource } ∧
    ∀ source ∈ (ChatResponse.mk "30 days." (contractResults.map toSource)).sources,
      source.excerpt.length ≤ 203 :=
  ⟨rfl, generateChatResponse_excerpt_length
    (envWith (embedded [1, 2, 3]) (.ok (some contractResults)) (.ok (some "30 days.")))
    "What is the termination clause?" "user-1" .omitted freshState _ rfl⟩

/-- C5: when the provider yields a native vector `values` of length below 1024,
`createEmbedding` returns a vector of length exactly 1024 whose first entries are those of
`values`, in order, and whose remaining entries are all 0. -/
theorem createEmbedding_pads (env : Env ν) (text : String) (s : State ν) (values : List ν)
    (hInit : (initializeGemini env s).1 = .ok ())
    (hEmbed : env.embedContent "text-embedding-004" text
      = .ok { embedding := .value { values := .value values } })
    (hShort : values.length < 1024) :
    ∃ out, (createEmbedding env text s).1 = .ok out ∧ out.length = 1024 ∧
      (∀ i : Nat, i < values.length → out[i]? = values[i]?) ∧
      (∀ i : Nat, values.length ≤ i → i < 1024 → out[i]? = some 0) := by
  refine ⟨embedding1024 values, ?_, ?_, ?_, ?_⟩
  · rw [createEmbedding_values env text s values hInit hEmbed]
  · rw [embedding1024_eq, List.length_append, List.length_replicate]
    omega
  · intro i hi
    rw [embedding1024_eq, List.getElem?_append_left hi]
  · intro i hlo hhi
    rw [embedding1024_eq, List.getElem?_append_right hlo, List.getElem?_replicate]
    have : i - values.length < 1024 - values.length := by omega
    simp [this]

/-- C5, at a concrete input: a native vector of three entries. -/
theorem createEmbedding_pads_witness :
    ∃ out, (createEmbedding (envWith (embedded [7, 8, 9]) (.ok none) (.ok none))
        "hello" freshState).1 = .ok out ∧ out.length = 1024 ∧
      (∀ i : Nat, i < [7, 8, (9 : Int)].length → out[i]? = [7, 8, (9 : Int)][i]?) ∧
      (∀ i : Nat, [7, 8, (9 : Int)].length ≤ i → i < 1024 → out[i]? = some 0) :=
  createEmbedding_pads _ _ _ [7, 8, 9] rfl rfl (by decide)

/-- C6 fails on the code: for a native vector of 1025 entries `createEmbedding` does not throw;
it returns that vector, of length 1025 and not 1024. -/
theorem createEmbedding_oversized_counterexample :
    1024 < oversizedValues.length ∧
    ∃ out, (createEmbedding (envWith (embedded oversizedValues) (.ok none) (.ok none))
        "hello" freshState).1 = .ok out ∧ out = oversizedValues ∧ out.length = 1025 := by
  have hlen : oversizedValues.length = 1025 := List.length_replicate 1025 1
  refine ⟨by rw [hlen]; omega, oversizedValues, ?_, rfl, hlen⟩
  rw [createEmbedding_values (envWith (embedded oversizedValues) (.ok none) (.ok none)) "hello"
    freshState oversizedValues rfl rfl, embedding1024_eq, hlen]
  show Except.ok (oversizedValues ++ []) = Except.ok oversizedValues
  rw [List.append_nil]

/-- C6, amended: `createEmbedding` does not fail on a native vector longer than 1024; it returns
the native vector itself, nothing dropped and nothing added. The vector it returns has length
`max D_native 1024`, which is 1024 exactly when `D_native ≤ 1024`. -/
theorem createEmbedding_length (env : Env ν) (text : String) (s : State ν) (values : List ν)
    (hInit : (initializeGemini env s).1 = .ok ())
    (hEmbed : env.embedContent "text-embedding-004" text
      = .ok { embedding := .value { values := .value values } }) :
    ∃ out, (createEmbedding env text s).1 = .ok out ∧
      out.length = max values.length 1024 ∧
      (1024 < values.length → out = values) := by
  refine ⟨embedding1024 values, ?_, ?_, ?_⟩
  · rw [createEmbedding_values env text s values hInit hEmbed]
  · rw [embedding1024_eq, List.length_append, List.length_replicate]
    omega
  · intro hlong
    have h0 : 1024 - values.length = 0 := by omega
    rw [embedding1024_eq, h0]
    exact List.append_nil values

/-- C6 amended, at a concrete input: a native vector of 1025 entries. -/
theorem createEmbedding_length_witness :
    ∃ out, (createEmbedding (envWith (embedded oversizedValues) (.ok none) (.ok none))
        "hello" freshState).1 = .ok out ∧
      out.length = max oversizedValues.length 1024 ∧
      (1024 < oversizedValues.length → out = oversizedValues) :=
  createEmbedding_length _ "hello" freshState oversizedValues rfl rfl

/-- C7: when the search stage is reached (the client initialises and the embedding call yields
`values`), the log of calls after `generateChatResponse` is the log before it, then the
embedding call, then one call of `queryVectors` whose vector is the embedding returned by
`createEmbedding` for the query, whose `k` is 5, and whose filter is absent when
`selectedDocumentName` is omitted, `null` or the empty string, and is `{documentName: X}` when
it is a non-empty string `X`. -/
theorem generateChatResponse_query_arguments (env : Env ν) (query userId : String)
    (selectedDocumentName : SelectedDocumentName) (s : State ν) (values : List ν)
    (hInit : (initializeGemini env s).1 = .ok ())
    (hEmbed : env.embedContent "text-embedding-004" query
      = .ok { embedding := .value { values := .value values } }) :
    ∃ queryEmbedding filter rest,
      (createEmbedding env query s).1 = .ok queryEmbedding ∧
      (generateChatResponse env query userId selectedDocumentName s).2.calls
        = s.calls ++ Call.embedContent "text-embedding-004" query ::
            Call.queryVectors queryEmbedding 5 filter :: rest ∧
      ((selectedDocumentName = .omitted ∨ selectedDocumentName = .null ∨
          selectedDocumentName = .str "") → filter = none) ∧
      (∀ name : String, name ≠ "" → selectedDocumentName = .str name →
          filter = some { documentName := name }) := by
  obtain ⟨client, hc⟩ := initializeGemini_ok env s hInit
  have hcalls : (searched env query (embedding1024 values) selectedDocumentName s).calls
      = s.calls ++ [Call.embedContent "text-embedding-004" query,
          Call.queryVectors (embedding1024 values) 5 (filterOf selectedDocumentName)] := by
    simp [searched, hc, State.record]
  have hfinal : ∃ rest, (generateChatResponse env query userId selectedDocumentName s).2.calls
      = s.calls ++ Call.embedContent "text-embedding-004" query ::
          Call.queryVectors (embedding1024 values) 5 (filterOf selectedDocumentName) :: rest := by
    unfold generateChatResponse
    rw [generateChatResponseTry_of_embedded env query selectedDocumentName s values hInit hEmbed]
    rcases env.queryVectors (embedding1024 values) 5 (filterOf selectedDocumentName)
      with message | _ | searchResults
    · exact ⟨[], hcalls⟩
    · exact ⟨[], hcalls⟩
    · by_cases hlen : searchResults.length = 0
      · simp only [hlen, if_true]
        exact ⟨[], hcalls⟩
      · simp only [hlen, if_false]
        refine ⟨[Call.generateContent
          { model := "gemini-1.5-flash", systemInstruction := some systemInstruction }
          (userPrompt query (contextOf searchResults))], ?_⟩
        cases env.generateContent
            { model := "gemini-1.5-flash", systemInstruction := some systemInstruction }
            (userPrompt query (contextOf searchResults)) <;>
          simp [State.record, hcalls]
  obtain ⟨rest, hrest⟩ := hfinal
  refine ⟨embedding1024 values, filterOf selectedDocumentName, rest, ?_, hrest, ?_, ?_⟩
  · rw [createEmbedding_values env query s values hInit hEmbed]
  · rintro (h | h | h) <;> rw [h] <;> rfl
  · intro name hname h
    rw [h]
    simp [filterOf, hname]

/-- C7, at a concrete input: the document `contract.pdf` is selected. -/
theorem generateChatResponse_query_arguments_witness :
    ∃ queryEmbedding filter rest,
      (createEmbedding
        (envWith (embedded [1, 2, 3]) (.ok (some contractResults)) (.ok (some "30 days.")))
        "What is the termination clause?" freshState).1 = .ok queryEmbedding ∧
      (generateChatResponse
        (envWith (embedded [1, 2, 3]) (.ok (some contractResults)) (.ok (some "30 days.")))
        "What is the termination clause?" "user-1" (.str "contract.pdf") freshState).2.calls
        = freshState.calls ++ Call.embedContent "text-embedding-004"
            "What is the termination clause?" ::
            Call.queryVectors queryEmbedding 5 filter :: rest ∧
      ((SelectedDocumentName.str "contract.pdf" = .omitted ∨
          SelectedDocumentName.str "contract.pdf" = .null ∨
          SelectedDocumentName.str "contract.pdf" = .str "") → filter = none) ∧
      (∀ name : String, name ≠ "" → SelectedDocumentName.str "contract.pdf" = .str name →
          filter = some { documentName := name }) :=
  generateChatResponse_query_arguments _ _ "user-1" (.str "contract.pdf") freshState [1, 2, 3]
    rfl rfl

/-- C8: `generateTitle` never raises. For every environment, message and state it returns a
string; the string is exactly "New Conversation" whenever client initialisation fails, the
client is not set after initialisation, or the provider call fails. -/
theorem generateTitle_never_raises {ν : Type} (env : Env ν) (firstMessage : String)
    (s : State ν) :
    ∃ title, (generateTitle env firstMessage s).1 = .ok title ∧
      ((∃ message, (initializeGemini env s).1 = .error message) → title = "New Conversation") ∧
      ((initializeGemini env s).2.genAI = none → title = "New Conversation") ∧
      ((∃ message, env.generateContent { model := "gemini-1.5-flash", systemInstruction := none }
          (titlePrompt firstMessage) = .error message) → title = "New Conversation") := by
  unfold generateTitle generateTitleTry
  rcases hi : initializeGemini env s with ⟨_ | _, s1⟩
  · exact ⟨"New Conversation", rfl, fun _ => rfl, fun _ => rfl, fun _ => rfl⟩
  · simp only
    cases hg : s1.genAI with
    | none => exact ⟨"New Conversation", rfl, fun _ => rfl, fun _ => rfl, fun _ => rfl⟩
    | some client =>
      simp only
      cases hc : env.generateContent { model := "gemini-1.5-flash", systemInstruction := none }
          (titlePrompt firstMessage) with
      | error message => exact ⟨"New Conversation", rfl, fun _ => rfl, fun _ => rfl, fun _ => rfl⟩
      | ok response =>
        refine ⟨stringOr (response.map trim) "New Conversation", rfl, ?_, ?_, ?_⟩
        · rintro ⟨message, hm⟩
          simp at hm
        · intro hn
          simp at hn
        · rintro ⟨message, hm⟩
          simp at hm

/-- C8, at a concrete input: the provider call fails with a quota error. -/
theorem generateTitle_never_raises_witness :
    (generateTitle (envWith (embedded [1, 2, 3]) (.ok none) (.error "quota exceeded"))
      "How do I cancel?" freshState).1 = .ok "New Conversation" := by
  obtain ⟨title, hTitle, _, _, hFail⟩ := generateTitle_never_raises
    (envWith (embedded [1, 2, 3]) (.ok none) (.error "quota exceeded"))
    "How do I cancel?" freshState
  rw [hTitle, hFail ⟨"quota exceeded", rfl⟩]

/-- C9 fails on the code: a match whose `documentName` is present and is the empty string is
mapped to a source whose `documentName` is "Unknown Document", not the match's own value. -/
theorem generateChatResponse_empty_name_counterexample :
    unnamedResults.map (fun result => result.metadata.documentName) = [some ""] ∧
    (generateChatResponse
      (envWith (embedded [1, 2, 3]) (.ok (some unnamedResults)) (.ok (some "See clause 7.")))
      "When does it renew?" "user-1" .omitted freshState).1
      = .ok { content := "See clause 7."
              sources := [ { documentId := "doc-2"
                             documentName := "Unknown Document"
                             pageNumber := 2
                             excerpt := utf16 "Clause 7 covers renewal...." } ] } :=
  ⟨rfl, rfl⟩

/-- C9, amended: the source built from a match carries the match's `documentId`; its
`documentName` is the match's when that is present and not the empty string, and
"Unknown Document" when it is absent or the empty string; its `pageNumber` is the match's when
that is present and not 0, and 1 when it is absent or 0. -/
theorem generateChatResponse_source_fields (env : Env ν) (query userId : String)
    (selectedDocumentName : SelectedDocumentName) (s : State ν) (values : List ν)
    (searchResults : List SearchResult) (text : Option String)
    (hInit : (initializeGemini env s).1 = .ok ())
    (hEmbed : env.embedContent "text-embedding-004" query
      = .ok { embedding := .value { values := .value values } })
    (hSearch : env.queryVectors (embedding1024 values) 5 (filterOf selectedDocumentName)
      = .ok (some searchResults))
    (hNonEmpty : searchResults ≠ [])
    (hGenerate : env.generateContent
        { model := "gemini-1.5-flash", systemInstruction := some systemInstruction }
        (userPrompt query (contextOf searchResults)) = .ok text) :
    ∃ response, (generateChatResponse env query userId selectedDocumentName s).1 = .ok response ∧
      ∀ (i : Nat) (result : SearchResult), searchResults[i]? = some result →
        ∃ source, response.sources[i]? = some source ∧
          source.documentId = result.metadata.documentId ∧
          (∀ name : String, result.metadata.documentName = some name → name ≠ "" →
            source.documentName = name) ∧
          (result.metadata.documentName = none ∨ result.metadata.documentName = some "" →
            source.documentName = "Unknown Document") ∧
          (∀ page : Nat, result.metadata.pageNumber = some page → page ≠ 0 →
            source.pageNumber = page) ∧
          (result.metadata.pageNumber = none ∨ result.metadata.pageNumber = some 0 →
            source.pageNumber = 1) := by
  refine ⟨_, generateChatResponse_success env query userId selectedDocumentName s values
    searchResults text hInit hEmbed hSearch hNonEmpty hGenerate, ?_⟩
  intro i result hi
  refine ⟨toSource result, by simp [hi], rfl, ?_, ?_, ?_, ?_⟩
  · intro name hname hne
    simp [toSource, stringOr, hname, hne]
  · rintro (h | h) <;> simp [toSource, stringOr, h]
  · intro page hpage hne
    simp [toSource, numberOr, hpage, hne]
  · rintro (h | h) <;> simp [toSource, numberOr, h]

/-- C9 amended, at a concrete input: two matches from `contract.pdf`. -/
theorem generateChatResponse_source_fields_witness :
    ∃ response,
      (generateChatResponse
        (envWith (embedded [1, 2, 3]) (.ok (some contractResults)) (.ok (some "30 days.")))
        "What is the termination clause?" "user-1" .omitted freshState).1 = .ok response ∧
      ∀ (i : Nat) (result : SearchResult), contractResults[i]? = some result →
        ∃ source, response.sources[i]? = some source ∧
          source.documentId = result.metadata.documentId ∧
          (∀ name : String, result.metadata.documentName = some name → name ≠ "" →
            source.documentName = name) ∧
          (result.metadata.documentName = none ∨ result.metadata.documentName = some "" →
            source.documentName = "Unknown Document") ∧
          (∀ page : Nat, result.metadata.pageNumber = some page → page ≠ 0 →
            source.pageNumber = page) ∧
          (result.metadata.pageNumber = none ∨ result.metadata.pageNumber = some 0 →
            source.pageNumber = 1) :=
  generateChatResponse_source_fields _ _ _ _ _ [1, 2, 3] contractResults (some "30 days.")
    rfl rfl rfl (by decide) rfl

/-- C10 fails on the code: a failure of the vector store and a failure of the generator that
carry the same message raise the same error, so the error does not tell the search stage from
the generate stage. -/
theorem generateChatResponse_stage_counterexample :
    (generateChatResponse
      (envWith (embedded [1, 2, 3]) (.error "request timed out") (.ok (some "unused")))
      "What is the termination clause?" "user-1" .omitted freshState).1
      = .error "Failed to generate response: request timed out" ∧
    (generateChatResponse
      (envWith (embedded [1, 2, 3]) (.ok (some contractResults)) (.error "request timed out"))
      "What is the termination clause?" "user-1" .omitted freshState).1
      = .error "Failed to generate response: request timed out" :=
  ⟨rfl, rfl⟩

/-- C10, amended: once the client is initialised, a failure of an external call makes
`generateChatResponse` raise an error and return no answer. The message of the error is
"Failed to generate response: " followed, for a failure of the embedding call, by
"Failed to create embedding: " and the original message, and, for a failure of the vector
store or of the generator, by the original message alone. -/
theorem generateChatResponse_failure (env : Env ν) (query userId : String)
    (selectedDocumentName : SelectedDocumentName) (s : State ν) (message : String)
    (hInit : (initializeGemini env s).1 = .ok ()) :
    (env.embedContent "text-embedding-004" query = .error message →
      (generateChatResponse env query userId selectedDocumentName s).1
        = .error ("Failed to generate response: " ++ ("Failed to create embedding: " ++ message))) ∧
    (∀ values : List ν,
      env.embedContent "text-embedding-004" query
        = .ok { embedding := .value { values := .value values } } →
      env.queryVectors (embedding1024 values) 5 (filterOf selectedDocumentName)
        = .error message →
      (generateChatResponse env query userId selectedDocumentName s).1
        = .error ("Failed to generate response: " ++ message)) ∧
    (∀ (values : List ν) (searchResults : List SearchResult),
      env.embedContent "text-embedding-004" query
        = .ok { embedding := .value { values := .value values } } →
      env.queryVectors (embedding1024 values) 5 (filterOf selectedDocumentName)
        = .ok (some searchResults) →
      searchResults ≠ [] →
      env.generateContent
        { model := "gemini-1.5-flash", systemInstruction := some systemInstruction }
        (userPrompt query (contextOf searchResults)) = .error message →
      (generateChatResponse env query userId selectedDocumentName s).1
        = .error ("Failed to generate response: " ++ message)) := by
  refine ⟨?_, ?_, ?_⟩
  · intro hEmbed
    have h2 : (initializeGemini env (initializeGemini env s).2).1 = .ok () := by
      rw [initializeGemini_twice env s hInit]
    unfold generateChatResponse
    rw [generateChatResponseTry_of_ready env query selectedDocumentName s hInit,
      createEmbedding_error env query _ message h2 hEmbed]
  · intro values hEmbed hSearch
    unfold generateChatResponse
    rw [generateChatResponseTry_of_embedded env query selectedDocumentName s values hInit hEmbed,
      hSearch]
  · intro values searchResults hEmbed hSearch hNonEmpty hGenerate
    have hlen : ¬ searchResults.length = 0 := by
      intro h0
      exact hNonEmpty (List.length_eq_zero.mp h0)
    unfold generateChatResponse
    rw [generateChatResponseTry_of_embedded env query selectedDocumentName s values hInit hEmbed,
      hSearch]
    simp only [hlen, if_false, hGenerate]

/-- C10 amended, at concrete inputs: one failure at each of the three stages. -/
theorem generateChatResponse_failure_witness :
    (generateChatResponse
      (envWith (.error "quota exceeded") (.ok (some contractResults)) (.ok (some "unused")))
      "What is the termination clause?" "user-1" .omitted freshState).1
      = .error ("Failed to generate response: " ++
          ("Failed to create embedding: " ++ "quota exceeded")) ∧
    (generateChatResponse
      (envWith (embedded [1, 2, 3]) (.error "index unavailable") (.ok (some "unused")))
      "What is the termination clause?" "user-1" .omitted freshState).1
      = .error ("Failed to generate response: " ++ "index unavailable") ∧
    (generateChatResponse
      (envWith (embedded [1, 2, 3]) (.ok (some contractResults)) (.error "request blocked"))
      "What is the termination clause?" "user-1" .omitted freshState).1
      = .error ("Failed to generate response: " ++ "request blocked") :=
  ⟨(generateChatResponse_failure
      (envWith (.error "quota exceeded") (.ok (some contractResults)) (.ok (some "unused")))
      "What is the termination clause?" "user-1" .omitted freshState "quota exceeded" rfl).1 rfl,
   (generateChatResponse_failure
      (envWith (embedded [1, 2, 3]) (.error "index unavailable") (.ok (some "unused")))
      "What is the termination clause?" "user-1" .omitted freshState "index unavailable"
      rfl).2.1 [1, 2, 3] rfl rfl,
   (generateChatResponse_failure
      (envWith (embedded [1, 2, 3]) (.ok (some contractResults)) (.error "request blocked"))
      "What is the termination clause?" "user-1" .omitted freshState "request blocked"
      rfl).2.2 [1, 2, 3] contractResults rfl rfl (by decide) rfl⟩

/-- C11: for a non-empty sequence of matches and a generator call that succeeds, the content
of the answer is the generator's text when that text is not empty, and the fixed sentence
"I apologize, but I couldn't generate a response at this time." when the generator yields no
text (missing or empty); in both cases `sources` is the list built from the matches. -/
theorem generateChatResponse_content (env : Env ν) (query userId : String)
    (selectedDocumentName : SelectedDocumentName) (s : State ν) (values : List ν)
    (searchResults : List SearchResult) (text : Option String)
    (hInit : (initializeGemini env s).1 = .ok ())
    (hEmbed : env.embedContent "text-embedding-004" query
      = .ok { embedding := .value { values := .value values } })
    (hSearch : env.queryVectors (embedding1024 values) 5 (filterOf selectedDocumentName)
      = .ok (some searchResults))
    (hNonEmpty : searchResults ≠ [])
    (hGenerate : env.generateContent
        { model := "gemini-1.5-flash", systemInstruction := some systemInstruction }
        (userPrompt query (contextOf searchResults)) = .ok text) :
    ∃ response, (generateChatResponse env query userId selectedDocumentName s).1 = .ok response ∧
      (∀ generated : String, text = some generated → generated ≠ "" →
        response.content = generated) ∧
      (text = none ∨ text = some "" →
        response.content = "I apologize, but I couldn't generate a response at this time.") ∧
      response.sources = searchResults.map toSource := by
  refine ⟨_, generateChatResponse_success env query userId selectedDocumentName s values
    searchResults text hInit hEmbed hSearch hNonEmpty hGenerate, ?_, ?_, rfl⟩
  · intro generated hText hne
    simp [stringOr, hText, hne]
  · rintro (h | h) <;> simp [stringOr, h, noGeneration]

/-- C11, at a concrete input: the generator answers with an empty text. -/
theorem generateChatResponse_content_witness :
    ∃ response,
      (generateChatResponse
        (envWith (embedded [1, 2, 3]) (.ok (some contractResults)) (.ok (some "")))
        "What is the termination clause?" "user-1" .omitted freshState).1 = .ok response ∧
      (∀ generated : String, some "" = some generated → generated ≠ "" →
        response.content = generated) ∧
      (some "" = none ∨ some "" = some "" →
        response.content = "I apologize, but I couldn't generate a response at this time.") ∧
      response.sources = contractResults.map toSource :=
  generateChatResponse_content _ _ _ _ _ [1, 2, 3] contractResults (some "")
    rfl rfl rfl (by decide) rfl

/-- C12: with the API key missing (absent or empty) and the client unset, `createEmbedding` and
`generateChatResponse` fail with an error; the state after the failure is the state before it,
so no call to the embedding provider, the vector store or the generator has been logged and
`genAI` is still `null`; and after any number `n` of repetitions the next call fails with the
same message. -/
theorem missing_key_fails (env : Env ν) (text query userId : String)
    (selectedDocumentName : SelectedDocumentName) (s : State ν)
    (hKey : env.GEMINI_API_KEY = none ∨ env.GEMINI_API_KEY = some "")
    (hNull : s.genAI = none) :
    (createEmbedding env text s).1
      = .error "Failed to create embedding: No Gemini API key found in environment variables" ∧
    (createEmbedding env text s).2.calls = s.calls ∧
    (createEmbedding env text s).2.genAI = none ∧
    (generateChatResponse env query userId selectedDocumentName s).1
      = .error "Failed to generate response: No Gemini API key found in environment variables" ∧
    (generateChatResponse env query userId selectedDocumentName s).2.calls = s.calls ∧
    (generateChatResponse env query userId selectedDocumentName s).2.genAI = none ∧
    (∀ n : Nat, (createEmbedding env text (afterEmbeddings env text n s)).1
      = .error "Failed to create embedding: No Gemini API key found in environment variables") ∧
    (∀ n : Nat,
      (generateChatResponse env query userId selectedDocumentName
        (afterResponses env query userId selectedDocumentName n s)).1
      = .error "Failed to generate response: No Gemini API key found in environment variables") := by
  have hE := createEmbedding_missing_key env text s hKey hNull
  have hR := generateChatResponse_missing_key env query userId selectedDocumentName s hKey hNull
  refine ⟨?_, ?_, ?_, ?_, ?_, ?_, ?_, ?_⟩
  · rw [hE]
  · rw [hE]
  · rw [hE]
    exact hNull
  · rw [hR]
  · rw [hR]
  · rw [hR]
    exact hNull
  · intro n
    rw [afterEmbeddings_missing_key env text s n hKey hNull, hE]
  · intro n
    rw [afterResponses_missing_key env query userId selectedDocumentName s n hKey hNull, hR]

/-- C12, at a concrete input: an environment without a key, a freshly loaded module. -/
theorem missing_key_fails_witness :
    (createEmbedding envWithoutKey "hello" freshState).1
      = .error "Failed to create embedding: No Gemini API key found in environment variables" ∧
    (createEmbedding envWithoutKey "hello" freshState).2.calls = freshState.calls ∧
    (createEmbedding envWithoutKey "hello" freshState).2.genAI = none ∧
    (generateChatResponse envWithoutKey "What is the termination clause?" "user-1" .omitted
        freshState).1
      = .error "Failed to generate response: No Gemini API key found in environment variables" ∧
    (generateChatResponse envWithoutKey "What is the termination clause?" "user-1" .omitted
        freshState).2.calls = freshState.calls ∧
    (generateChatResponse envWithoutKey "What is the termination clause?" "user-1" .omitted
        freshState).2.genAI = none ∧
    (∀ n : Nat, (createEmbedding envWithoutKey "hello"
        (afterEmbeddings envWithoutKey "hello" n freshState)).1
      = .error "Failed to create embedding: No Gemini API key found in environment variables") ∧
    (∀ n : Nat,
      (generateChatResponse envWithoutKey "What is the termination clause?" "user-1" .omitted
        (afterResponses envWithoutKey "What is the termination clause?" "user-1" .omitted n
          freshState)).1
      = .error "Failed to generate response: No Gemini API key found in environment variables") :=
  missing_key_fails envWithoutKey "hello" "What is the termination clause?" "user-1" .omitted
    freshState (Or.inl rfl) rfl

/-- C13: for a non-empty sequence of matches, the prompt passed to the generator is
"Query: " + query + "\n\nContext from documents:\n" + context +
"\n\nPlease provide a helpful answer based ONLY on the context above.", where `context` is the
contents of the matches in ranked order with "\n\n" between each adjacent pair: a single
content alone, and otherwise the first content, the delimiter, and the context of the rest. -/
theorem generateChatResponse_prompt (env : Env ν) (query userId : String)
    (selectedDocumentName : SelectedDocumentName) (s : State ν) (values : List ν)
    (searchResults : List SearchResult)
    (hInit : (initializeGemini env s).1 = .ok ())
    (hEmbed : env.embedContent "text-embedding-004" query
      = .ok { embedding := .value { values := .value values } })
    (hSearch : env.queryVectors (embedding1024 values) 5 (filterOf selectedDocumentName)
      = .ok (some searchResults))
    (hNonEmpty : searchResults ≠ []) :
    ∃ context prompt : String,
      context = String.intercalate "\n\n"
        (searchResults.map (fun result : SearchResult => result.metadata.content)) ∧
      (∀ result : SearchResult, searchResults = [result] → context = result.metadata.content) ∧
      (∀ (first second : SearchResult) (rest : List SearchResult),
        searchResults = first :: second :: rest →
        context = first.metadata.content ++ "\n\n" ++ contextOf (second :: rest)) ∧
      prompt = "Query: " ++ query ++ "\n\nContext from documents:\n" ++ context ++
        "\n\nPlease provide a helpful answer based ONLY on the context above." ∧
      (generateChatResponse env query userId selectedDocumentName s).2.calls
        = s.calls ++
          [Call.embedContent "text-embedding-004" query,
           Call.queryVectors (embedding1024 values) 5 (filterOf selectedDocumentName),
           Call.generateContent
             { model := "gemini-1.5-flash", systemInstruction := some systemInstruction }
             prompt] := by
  refine ⟨contextOf searchResults, userPrompt query (contextOf searchResults), ?_, ?_, ?_, rfl,
    generateChatResponse_generate_calls env query userId selectedDocumentName s values
      searchResults hInit hEmbed hSearch hNonEmpty⟩
  · exact join_eq_intercalate "\n\n" _
  · intro result h
    rw [h]
    rfl
  · intro first second rest h
    rw [h]
    rfl

/-- C13, at a concrete input: two matches from `contract.pdf`. -/
theorem generateChatResponse_prompt_witness :
    (generateChatResponse
      (envWith (embedded [1, 2, 3]) (.ok (some contractResults)) (.ok (some "30 days.")))
      "What is the termination clause?" "user-1" .omitted freshState).2.calls
      = [Call.embedContent "text-embedding-004" "What is the termination clause?",
         Call.queryVectors (embedding1024 [1, 2, 3]) 5 none,
         Call.generateContent
           { model := "gemini-1.5-flash", systemInstruction := some systemInstruction }
           "Query: What is the termination clause?\n\nContext from documents:\nEither party may terminate with 30 days notice.\n\nTermination for cause is immediate.\n\nPlease provide a helpful answer based ONLY on the context above."] := by
  obtain ⟨context, prompt, hContext, _, _, hPrompt, hCalls⟩ :=
    generateChatResponse_prompt
      (envWith (embedded [1, 2, 3]) (.ok (some contractResults)) (.ok (some "30 days.")))
      "What is the termination clause?" "user-1" .omitted freshState [1, 2, 3] contractResults
      rfl rfl rfl (by decide)
  rw [hCalls, hPrompt, hContext]
  rfl

/-- C14: the system instruction passed to the generator is one fixed string, the same for
every environment, query, user, selected document and sequence of matches, and it contains
the sentence that `generateChatResponse` returns as content when the search has no result. -/
theorem generateChatResponse_system_instruction :
    ∃ instruction before after : String,
      instruction = before ++
        "I'm sorry, but I don't know the answer. The information is not available in the document."
        ++ after ∧
      (∀ (ν : Type) [Zero ν] (env : Env ν) (query userId : String)
        (selectedDocumentName : SelectedDocumentName) (s : State ν) (values : List ν)
        (searchResults : List SearchResult),
        (initializeGemini env s).1 = .ok () →
        env.embedContent "text-embedding-004" query
          = .ok { embedding := .value { values := .value values } } →
        env.queryVectors (embedding1024 values) 5 (filterOf selectedDocumentName)
          = .ok (some searchResults) →
        searchResults ≠ [] →
        ∃ prompt : String,
          (generateChatResponse env query userId selectedDocumentName s).2.calls
            = s.calls ++
              [Call.embedContent "text-embedding-004" query,
               Call.queryVectors (embedding1024 values) 5 (filterOf selectedDocumentName),
               Call.generateContent
                 { model := "gemini-1.5-flash", systemInstruction := some instruction }
                 prompt]) ∧
      (∀ (ν : Type) [Zero ν] (env : Env ν) (query userId : String)
        (selectedDocumentName : SelectedDocumentName) (s : State ν) (values : List ν),
        (initializeGemini env s).1 = .ok () →
        env.embedContent "text-embedding-004" query
          = .ok { embedding := .value { values := .value values } } →
        (env.queryVectors (embedding1024 values) 5 (filterOf selectedDocumentName) = .ok none ∨
          env.queryVectors (embedding1024 values) 5 (filterOf selectedDocumentName)
            = .ok (some [])) →
        (generateChatResponse env query userId selectedDocumentName s).1
          = .ok { content := "I'm sorry, but I don't know the answer. The information is not available in the document."
                  sources := [] }) := by
  refine ⟨systemInstruction, _, _, systemInstruction_contains, ?_, ?_⟩
  · intro ν _ env query userId selectedDocumentName s values searchResults hInit hEmbed hSearch
      hNonEmpty
    exact ⟨_, generateChatResponse_generate_calls env query userId selectedDocumentName s values
      searchResults hInit hEmbed hSearch hNonEmpty⟩
  · intro ν _ env query userId selectedDocumentName s values hInit hEmbed hSearch
    exact generateChatResponse_no_answer env query userId selectedDocumentName s values
      hInit hEmbed hSearch

/-- C15: `refetchInterval` returns 3000 exactly when the user is authenticated, the data is an
array, and some document of it has status "uploading" or "processing"; in every other case it
returns `false`. -/
theorem refetchInterval_polls_iff (isAuthenticated : Bool) (data : QueryData) :
    (refetchInterval isAuthenticated data = .milliseconds 3000 ↔
      isAuthenticated = true ∧
        ∃ docs, data = .array docs ∧
          ∃ document, some document ∈ docs ∧
            (document.status = some "uploading" ∨ document.status = some "processing")) ∧
    (refetchInterval isAuthenticated data ≠ .milliseconds 3000 →
      refetchInterval isAuthenticated data = .off) := by
  have hAny : ∀ docs : List (Option Document), docs.any isInProgress = true ↔
      ∃ document, some document ∈ docs ∧
        (document.status = some "uploading" ∨ document.status = some "processing") := by
    intro docs
    rw [List.any_eq_true]
    constructor
    · rintro ⟨d, hd, hp⟩
      obtain ⟨document, rfl, hs⟩ := (isInProgress_iff d).mp hp
      exact ⟨document, hd, hs⟩
    · rintro ⟨document, hd, hs⟩
      exact ⟨some document, hd, (isInProgress_iff _).mpr ⟨document, rfl, hs⟩⟩
  cases isAuthenticated with
  | false => simp [refetchInterval]
  | true =>
    cases data with
    | undefined => simp [refetchInterval]
    | notArray => simp [refetchInterval]
    | array docs =>
      by_cases h : docs.any isInProgress = true
      · have h2 := (hAny docs).mp h
        simp [refetchInterval, h, h2]
      · have h2 : ¬ ∃ document, some document ∈ docs ∧
            (document.status = some "uploading" ∨ document.status = some "processing") :=
          fun hex => h ((hAny docs).mpr hex)
        simp only [refetchInterval, h]
        simp only [Bool.not_true, Bool.false_eq_true, if_false, reduceCtorEq, true_and,
          false_iff, ne_eq, not_false_eq_true, implies_true, and_true]
        rintro ⟨docs2, hd, hex⟩
        cases hd
        exact h2 hex

end Claims

end DocuMind
